import Mathlib

/-!
Shallow embedding of the DomEda marketplace backend (`backend/server.py`):
dish availability, rating aggregation, the checkout engine (cart validation,
mock card payment, stock decrement, order/payment creation) and the order
status machine, together with theorems settling the specification claims.

Python dict records are modelled as Lean structures; machine integers are
`Int`/`Nat`; floats (review ratings) are modelled as exact rationals `ℚ`;
the wall clock (minutes of day, current year/month, ISO timestamps, date
strings) is passed in explicitly.
-/

namespace DomEda

/-- Models `clean_str`: `str(value).strip()` for string inputs (whitespace
dropped from both ends). -/
def clean_str (s : String) : String :=
  ⟨((s.data.dropWhile Char.isWhitespace).reverse.dropWhile Char.isWhitespace).reverse⟩

/-- Models Python `str.lower()` (ASCII case folding suffices in scope). -/
def str_lower (s : String) : String := ⟨s.data.map Char.toLower⟩

/-- Split a character list on a separator, Python `str.split(sep)` style
(adjacent separators yield empty fields). -/
def splitChar (sep : Char) : List Char → List (List Char)
  | [] => [[]]
  | c :: rest =>
      match splitChar sep rest with
      | [] => [[]]
      | g :: gs => if c = sep then [] :: g :: gs else (c :: g) :: gs

/-- Python `value.split(":")` as a list of strings. -/
def split_colon (s : String) : List String :=
  (splitChar ':' s.data).map (fun cs => (⟨cs⟩ : String))

/-- Parse a nonempty run of ASCII decimal digits; `none` otherwise. -/
def parseDigits (cs : List Char) : Option Nat :=
  if cs ≠ [] ∧ cs.all Char.isDigit then
    some (cs.foldl (fun a c => a * 10 + (c.toNat - 48)) 0)
  else none

/-- Models Python `int(str)` on ASCII numerals: surrounding whitespace is
stripped and an optional single sign is allowed (underscore digit separators
are not modelled; no input in scope contains them). -/
def strToIntOpt (s : String) : Option Int :=
  match (clean_str s).data with
  | '+' :: rest => (parseDigits rest).map (fun n => (n : Int))
  | '-' :: rest => (parseDigits rest).map (fun n => -(n : Int))
  | cs => (parseDigits cs).map (fun n => (n : Int))

/-- Models `safe_int`: `int(value)` with a fallback on parse failure. -/
def safe_int (s : String) (fallback : Int) : Int :=
  (strToIntOpt s).getD fallback

/-- Models `valid_hhmm`: empty is valid (unbounded); otherwise exactly two
`:`-separated fields parsing to `0 ≤ HH ≤ 23` and `0 ≤ MM ≤ 59`. -/
def valid_hhmm (value : String) : Bool :=
  if value = "" then true
  else
    let parts := split_colon value
    if parts.length ≠ 2 then false
    else
      let hours := safe_int (parts.getD 0 "") (-1)
      let minutes := safe_int (parts.getD 1 "") (-1)
      decide (0 ≤ hours ∧ hours ≤ 23 ∧ 0 ≤ minutes ∧ minutes ≤ 59)

/-- Models `hhmm_to_minutes`: minutes after midnight, `-1` for an empty or
invalid bound. -/
def hhmm_to_minutes (value : String) : Int :=
  if ¬ valid_hhmm value ∨ value = "" then -1
  else
    let parts := split_colon value
    safe_int (parts.getD 0 "") 0 * 60 + safe_int (parts.getD 1 "") 0

/-- A dish record as persisted in the `dishes` collection (the fields the
core reads; JSON numeric fields are modelled as already-typed integers). -/
structure Dish where
  id : Int := 0
  cook_id : Int := 0
  title : String := ""
  cook : String := ""
  price : Int := 0
  district : String := ""
  delivery : List String := []
  portions_available : Int := 0
  available_from : String := ""
  available_until : String := ""
  rating : ℚ := 0
deriving DecidableEq, Repr

/-- Models `dish_portions_available`: the stored count floored at 0. -/
def dish_portions_available (d : Dish) : Int :=
  max 0 d.portions_available

/-- Models `dish_is_time_available`, with the wall clock (`now_local_minutes`)
passed in as `now`. -/
def dish_is_time_available (d : Dish) (now : Int) : Bool :=
  let available_from := clean_str d.available_from
  let available_until := clean_str d.available_until
  let from_minutes := hhmm_to_minutes available_from
  let until_minutes := hhmm_to_minutes available_until
  if 0 ≤ from_minutes ∧ now < from_minutes then false
  else if 0 ≤ until_minutes ∧ now > until_minutes then false
  else true

/-- The record returned by `dish_availability`. -/
structure Availability where
  is_available : Bool
  availability_label : String
  portions_available : Int
  available_from : String
  available_until : String
deriving DecidableEq, Repr

/-- Models `dish_availability`. -/
def dish_availability (d : Dish) (now : Int) : Availability :=
  let portions := dish_portions_available d
  let in_time_window := dish_is_time_available d now
  let is_available := decide (0 < portions) && in_time_window
  let available_until := clean_str d.available_until
  let label :=
    if portions ≤ 0 then "Закончилось"
    else if in_time_window = false then "Вне времени приема"
    else if available_until ≠ "" then
      s!"В наличии · до {available_until} · {portions} порц."
    else s!"В наличии · {portions} порц."
  { is_available := is_available
    availability_label := label
    portions_available := portions
    available_from := clean_str d.available_from
    available_until := available_until }

/-- Numeric value of an ASCII digit character (`int(char)` in the source,
applied only to digit characters). -/
def charDigit (c : Char) : Nat := c.toNat - 48

/-- Models `digits_only`: keep only the digit characters of the cleaned
string (`char.isdigit()`, ASCII digits in scope). -/
def digits_only (s : String) : String :=
  ⟨(clean_str s).data.filter Char.isDigit⟩

/-- Python slice `value[:n]`. -/
def str_take (s : String) (n : Nat) : String := ⟨s.data.take n⟩

/-- Python slice `value[-n:]` for a string of length ≥ n. -/
def str_last (s : String) (n : Nat) : String := ⟨s.data.drop (s.data.length - n)⟩

/-- Models `mask_card_number`. -/
def mask_card_number (value : String) : String :=
  if value.length < 8 then ""
  else str_take value 4 ++ " **** **** " ++ str_last value 4

/-- Models `card_brand`: brand inferred from the PAN prefix. -/
def card_brand (value : String) : String :=
  let ds := value.data
  if ds.take 1 = ['4'] then "VISA"
  else if ds.take 2 = ['5', '1'] ∨ ds.take 2 = ['5', '2'] ∨ ds.take 2 = ['5', '3'] ∨
      ds.take 2 = ['5', '4'] ∨ ds.take 2 = ['5', '5'] then "MASTERCARD"
  else if ds.take 2 = ['3', '4'] ∨ ds.take 2 = ['3', '7'] then "AMEX"
  else if ds.take 4 = ['2', '2', '0', '0'] then "MIR"
  else "CARD"

/-- The per-digit Luhn adjustment: double, and subtract 9 above 9. -/
def luhnDouble (d : Nat) : Nat :=
  if d * 2 > 9 then d * 2 - 9 else d * 2

/-- The checksum loop of `valid_card_luhn`: digits enumerated from the left
starting at `idx`, doubling the digits whose index has parity `parity`. -/
def luhnChecksumAux (ds : List Nat) (idx parity : Nat) : Nat :=
  match ds with
  | [] => 0
  | d :: rest =>
      (if idx % 2 = parity then luhnDouble d else d) + luhnChecksumAux rest (idx + 1) parity

/-- Models `valid_card_luhn`: nonempty, all digits, and the checksum (with
parity `len(value) % 2`) divisible by 10. -/
def valid_card_luhn (value : String) : Bool :=
  if value = "" ∨ ¬ value.data.all Char.isDigit then false
  else decide (luhnChecksumAux (value.data.map charDigit) 0 (value.length % 2) % 10 = 0)

/-- Modelled from the spec: the standard mod-10 Luhn sum, walking the digits
from the right (position 0 = rightmost) and doubling every second digit
(odd positions from the right). Used only to compare with `valid_card_luhn`. -/
def luhnSumFromRight (ds : List Nat) (pos : Nat) : Nat :=
  match ds with
  | [] => 0
  | d :: rest =>
      (if pos % 2 = 1 then luhnDouble d else d) + luhnSumFromRight rest (pos + 1)

/-- Modelled from the spec: standard Luhn acceptance on a digit string. -/
def luhn_spec (value : String) : Bool :=
  if value = "" ∨ ¬ value.data.all Char.isDigit then false
  else decide (luhnSumFromRight (value.data.map charDigit).reverse 0 % 10 = 0)

/-- The `payment` object of a checkout payload (`payload["payment"]` when it
is a dict; expiry fields are JSON numbers, modelled as integers). -/
structure PaymentPayload where
  method : String := ""
  card_number : String := ""
  exp_month : Int := 0
  exp_year : Int := 0
  cvc : String := ""
  holder : String := ""
deriving DecidableEq, Repr

/-- The validated payment data built by `validate_payment_payload`. -/
structure PaymentData where
  method : String
  card_brand : String
  card_masked : String
  card_last4 : String
  holder : String
  amount : Int
  currency : String
deriving DecidableEq, Repr

/-- The field checks of `validate_payment_payload` once the `payment` dict
is present: method, card number (length then Luhn), expiry bounds, CVC,
holder, and the not-expired check against the injected current year/month
(the source's `card_number`/`cvc`/`holder` locals are inlined). -/
def validate_payment_fields (p : PaymentPayload) (expected_amount : Int)
    (nowYear nowMonth : Int) : Except String PaymentData :=
  if str_lower (clean_str p.method) ≠ "card" then .error "payment_method_not_supported"
  else if (digits_only p.card_number).length < 13 ∨ (digits_only p.card_number).length > 19 then
    .error "card_number_invalid"
  else if ¬ valid_card_luhn (digits_only p.card_number) then .error "card_number_invalid"
  else if p.exp_month < 1 ∨ p.exp_month > 12 then .error "card_expiry_invalid"
  else if p.exp_year < 2000 ∨ p.exp_year > 2100 then .error "card_expiry_invalid"
  else if (digits_only p.cvc).length < 3 ∨ (digits_only p.cvc).length > 4 then
    .error "card_cvc_invalid"
  else if (clean_str p.holder).length < 2 then .error "card_holder_invalid"
  else if p.exp_year < nowYear ∨ (p.exp_year = nowYear ∧ p.exp_month < nowMonth) then
    .error "card_expired"
  else
    .ok
      { method := "card"
        card_brand := card_brand (digits_only p.card_number)
        card_masked := mask_card_number (digits_only p.card_number)
        card_last4 := str_last (digits_only p.card_number) 4
        holder := clean_str p.holder
        amount := expected_amount
        currency := "RUB" }

/-- Models `validate_payment_payload`; the current year and month (used by
the expiry check) are passed in explicitly. -/
def validate_payment_payload (payment : Option PaymentPayload) (expected_amount : Int)
    (nowYear nowMonth : Int) : Except String PaymentData :=
  match payment with
  | none => .error "payment_required"
  | some p => validate_payment_fields p expected_amount nowYear nowMonth

/-- A line item of an order's `items` list. -/
structure LineItem where
  dish_id : Int := 0
  dish_title : String := ""
  cook_id : Int := 0
  cook : String := ""
  qty : Int := 0
  unit_price : Int := 0
  subtotal : Int := 0
deriving DecidableEq, Repr

/-- A `status_history` event; the fields `at'` and `by'` model the JSON keys
`"at"` and `"by"`. -/
structure StatusEvent where
  status : String := ""
  at' : String := ""
  by' : String := ""
  note : String := ""
deriving DecidableEq, Repr

/-- The `payment_summary` sub-record stored on a checkout order. -/
structure PaymentSummary where
  method : String
  card_brand : String
  card_masked : String
  amount : Int
  currency : String
deriving DecidableEq, Repr

/-- A payment record as persisted in the `payments` collection. -/
structure Payment where
  id : String := ""
  order_id : String := ""
  status : String := ""
  provider : String := ""
  method : String := ""
  card_brand : String := ""
  card_masked : String := ""
  card_last4 : String := ""
  holder : String := ""
  amount : Int := 0
  currency : String := ""
  created_at : String := ""
deriving DecidableEq, Repr

/-- An order record as persisted in the `orders` collection (fields that are
absent on some stored orders are `Option`-valued). -/
structure Order where
  id : String := ""
  items : List LineItem := []
  total_price : Int := 0
  districts : List String := []
  city : String := ""
  customer_name : String := ""
  customer_phone : String := ""
  address : String := ""
  comment : String := ""
  delivery_mode : String := ""
  status : String := ""
  status_label : String := ""
  status_history : List StatusEvent := []
  created_at : String := ""
  payment_id : String := ""
  payment_status : String := ""
  payment_summary : Option PaymentSummary := none
  completed_at : Option String := none
  cancelled_at : Option String := none
deriving DecidableEq, Repr

/-- One entry of the checkout payload's `items` list (`dish_id`/`qty` after
the source's `safe_int` conversion of the JSON numbers). -/
structure CartRow where
  dish_id : Int := 0
  qty : Int := 0
deriving DecidableEq, Repr

/-- The checkout request payload; `items` is `none` when the field is not a
list, and an inner `none` models a row that is not a dict. -/
structure CheckoutPayload where
  items : Option (List (Option CartRow)) := none
  delivery_mode : String := ""
  city : String := ""
  customer_name : String := ""
  customer_phone : String := ""
  address : String := ""
  comment : String := ""
  payment : Option PaymentPayload := none
deriving DecidableEq, Repr

/-- Lookup in the `dish_map` dict comprehension of `validate_checkout_items`:
keyed by dish id restricted to positive ids, later records overwriting
earlier ones (so the *last* matching record wins). -/
def dishMapGet : List Dish → Int → Option Dish
  | [], _ => none
  | d :: rest, i =>
      match dishMapGet rest i with
      | some x => some x
      | none => if 0 < d.id ∧ d.id = i then some d else none

/-- A validated checkout row: the resolved dish record and the quantity. -/
structure CheckoutRow where
  dish : Dish
  qty : Int
deriving DecidableEq, Repr

/-- The per-row loop of `validate_checkout_items`. -/
def validate_items_loop (dishes : List Dish) (now : Int) :
    List (Option CartRow) → Except String (List CheckoutRow)
  | [] => .ok []
  | none :: _ => .error "items_invalid"
  | some row :: rest =>
      if row.dish_id ≤ 0 ∨ row.qty ≤ 0 then .error "items_invalid"
      else
        match dishMapGet dishes row.dish_id with
        | none => .error "dish_not_found"
        | some dish =>
            if (dish_availability dish now).is_available = false then .error "dish_unavailable"
            else if row.qty > dish_portions_available dish then .error "dish_stock_not_enough"
            else (validate_items_loop dishes now rest).map (fun v => ⟨dish, row.qty⟩ :: v)

/-- Models `validate_checkout_items`: the `(validated, error)` pair is
modelled as `Except error validated`. -/
def validate_checkout_items (payload_items : Option (List (Option CartRow)))
    (dishes : List Dish) (now : Int) : Except String (List CheckoutRow) :=
  match payload_items with
  | none => .error "items_required"
  | some [] => .error "items_required"
  | some rows => validate_items_loop dishes now rows

/-- The delivery mode used by `handle_checkout`: cleaned, defaulting to
`"pickup"` when empty. -/
def resolved_delivery_mode (payload : CheckoutPayload) : String :=
  if clean_str payload.delivery_mode = "" then "pickup" else clean_str payload.delivery_mode

/-- The item/total accumulation loop of `handle_checkout`, which also checks
that the delivery mode is offered by every line's dish. -/
def build_checkout_items (delivery_mode : String) :
    List CheckoutRow → Except String (Int × List LineItem)
  | [] => .ok (0, [])
  | row :: rest =>
      if delivery_mode ∈ row.dish.delivery then
        match build_checkout_items delivery_mode rest with
        | .error e => .error e
        | .ok (t, its) =>
            .ok (row.dish.price * row.qty + t,
              { dish_id := row.dish.id
                dish_title := row.dish.title
                cook_id := row.dish.cook_id
                cook := row.dish.cook
                qty := row.qty
                unit_price := row.dish.price
                subtotal := row.dish.price * row.qty } :: its)
      else .error "delivery_mode_not_available"

/-- Decrement a dish's stock by `qty`, flooring at 0 (the loop body of the
stock mutation in `handle_checkout`). -/
def decrement_dish (qty : Int) (d : Dish) : Dish :=
  { d with portions_available := max 0 (dish_portions_available d - qty) }

/-- Apply `f` to the *last* record with positive id `i` in the collection:
this is the object the `dish_map` dict comprehension holds, so it is the one
a checkout row aliases and mutates in place. -/
def updateLastMatch (f : Dish → Dish) : List Dish → Int → List Dish
  | [], _ => []
  | d :: rest, i =>
      if rest.any (fun x => decide (0 < x.id ∧ x.id = i)) then d :: updateLastMatch f rest i
      else if 0 < d.id ∧ d.id = i then f d :: rest
      else d :: rest

/-- The stock mutation loop of `handle_checkout`: each row decrements its
dish in place, reading the current (possibly already decremented) count. -/
def apply_stock_decrements (dishes : List Dish) (rows : List CheckoutRow) : List Dish :=
  rows.foldl (fun st row => updateLastMatch (decrement_dish row.qty) st row.dish.id) dishes

/-- Python `f"{n:04d}"` for nonnegative `n`. -/
def pad4 (n : Nat) : String :=
  let s := toString n
  if s.length < 4 then ⟨List.replicate (4 - s.length) '0'⟩ ++ s else s

/-- Models `next_order_id` with the current date string injected. -/
def next_order_id (orders : List Order) (dateStr : String) : String :=
  "ORD-" ++ dateStr ++ "-" ++ pad4 (orders.length + 1)

/-- Models `next_payment_id` with the current date string injected. -/
def next_payment_id (payments : List Payment) (dateStr : String) : String :=
  "PAY-" ++ dateStr ++ "-" ++ pad4 (payments.length + 1)

/-- Code-point comparison of strings, as Python compares them. -/
def charListLe : List Char → List Char → Bool
  | [], _ => true
  | _ :: _, [] => false
  | a :: as, b :: bs => if a = b then charListLe as bs else decide (a.toNat < b.toNat)

/-- Insertion step of the sort used to model Python `sorted`. -/
def insertSorted (x : String) : List String → List String
  | [] => [x]
  | y :: rest => if charListLe x.data y.data then x :: y :: rest else y :: insertSorted x rest

/-- Models Python `sorted(set_of_strings)`: deduplicate and sort. -/
def sorted_string_set (l : List String) : List String :=
  l.dedup.foldr insertSorted []

/-- The `districts` list stored on a checkout order. -/
def order_districts (rows : List CheckoutRow) : List String :=
  sorted_string_set ((rows.map (fun r => clean_str r.dish.district)).filter (· ≠ ""))

/-- The keys of `ORDER_STATUS_LABELS` (also the fixed display order
`ORDER_STATUS_FLOW`). -/
def ORDER_STATUS_FLOW : List String :=
  ["new", "paid", "accepted", "cooking", "ready", "delivering", "completed", "cancelled"]

/-- Models `ORDER_STATUS_LABELS` lookup: `labels.get(status, status)`,
i.e. `order_status_label`. -/
def order_status_label (status : String) : String :=
  if status = "new" then "Новый"
  else if status = "paid" then "Оплачен"
  else if status = "accepted" then "Принят"
  else if status = "cooking" then "Готовится"
  else if status = "ready" then "Готов к выдаче"
  else if status = "delivering" then "В пути"
  else if status = "completed" then "Завершен"
  else if status = "cancelled" then "Отменен"
  else status

/-- Models `ORDER_STATUS_TRANSITIONS` (sets modelled as duplicate-free
lists). -/
def ORDER_STATUS_TRANSITIONS (status : String) : List String :=
  if status = "new" then ["accepted", "cancelled"]
  else if status = "paid" then ["accepted", "cancelled"]
  else if status = "accepted" then ["cooking", "cancelled"]
  else if status = "cooking" then ["ready", "cancelled"]
  else if status = "ready" then ["delivering", "completed", "cancelled"]
  else if status = "delivering" then ["completed", "cancelled"]
  else []

/-- Models `normalize_order_status`. -/
def normalize_order_status (status : String) : String :=
  let value := str_lower (clean_str status)
  if value ∈ ORDER_STATUS_FLOW then value else "new"

/-- Models `order_allows_status`: self-transitions always allowed; otherwise
the transition table, with `delivering` suppressed from `ready` for pickup
orders. -/
def order_allows_status (order : Order) (next_status : String) : Bool :=
  let current := normalize_order_status order.status
  if next_status = current then true
  else
    let allowed := ORDER_STATUS_TRANSITIONS current
    let allowed :=
      if current = "ready" ∧ clean_str order.delivery_mode = "pickup" then
        allowed.filter (· ≠ "delivering")
      else allowed
    decide (next_status ∈ allowed)

/-- Normalization of one stored history event inside `order_status_history`. -/
def normalize_status_event (order : Order) (e : StatusEvent) : StatusEvent :=
  { status := normalize_order_status e.status
    at' := if clean_str e.at' = "" then clean_str order.created_at else clean_str e.at'
    by' := if clean_str e.by' = "" then "system" else clean_str e.by'
    note := clean_str e.note }

/-- Models `order_status_history`: normalize the stored events, or (for an
empty history) synthesize a single initial event; the wall-clock ISO
timestamp used when `created_at` is also empty is injected as `nowIso`. -/
def order_status_history (order : Order) (nowIso : String) : List StatusEvent :=
  if order.status_history ≠ [] then order.status_history.map (normalize_status_event order)
  else
    [{ status := normalize_order_status order.status
       at' := if clean_str order.created_at = "" then nowIso else clean_str order.created_at
       by' := "system"
       note := "" }]

/-- Models `append_order_status_history`: the stored history is replaced by
its normalized form with the new event appended. -/
def append_order_status_history (order : Order) (status actor note nowIso : String) : Order :=
  { order with
      status_history := order_status_history order nowIso ++
        [{ status := normalize_order_status status
           at' := nowIso
           by' := if clean_str actor = "" then "system" else clean_str actor
           note := clean_str note }] }

/-- The environment of one checkout request: the parsed payload, the three
persisted collections, and the injected wall clock. -/
structure CheckoutEnv where
  payload : CheckoutPayload := {}
  dishes : List Dish := []
  orders : List Order := []
  payments : List Payment := []
  now_minutes : Int := 0
  nowYear : Int := 2024
  nowMonth : Int := 1
  dateStr : String := ""
  nowIso : String := ""
deriving Repr

/-- The observable outcome of a checkout request: HTTP status, error code if
any, the created records if any, and the persisted collections afterwards. -/
structure CheckoutOutcome where
  http : Nat
  error : Option String
  order : Option Order
  payment : Option Payment
  dishes : List Dish
  orders : List Order
  payments : List Payment
deriving DecidableEq, Repr

/-- An error response from `handle_checkout`: HTTP 400 with the code, all
collections left as they were. -/
def checkoutError (code : String) (env : CheckoutEnv) : CheckoutOutcome :=
  ⟨400, some code, none, none, env.dishes, env.orders, env.payments⟩

/-- Models `create_payment_record` (the payments collection and the clock
are passed in; reading and re-writing the collection file is the append). -/
def create_payment_record (payments : List Payment) (order_id : String)
    (payment_data : PaymentData) (dateStr nowIso : String) : Payment :=
  { id := next_payment_id payments dateStr
    order_id := order_id
    status := "captured"
    provider := "domeda_pay_mock"
    method := payment_data.method
    card_brand := payment_data.card_brand
    card_masked := payment_data.card_masked
    card_last4 := payment_data.card_last4
    holder := payment_data.holder
    amount := payment_data.amount
    currency := payment_data.currency
    created_at := nowIso }

/-- Models `handle_checkout` end to end: cart validation, delivery-mode
checks, payment validation, stock decrement, and order/payment creation. -/
def handle_checkout (env : CheckoutEnv) : CheckoutOutcome :=
  match validate_checkout_items env.payload.items env.dishes env.now_minutes with
  | .error e => checkoutError e env
  | .ok checkout_rows =>
      let delivery_mode := resolved_delivery_mode env.payload
      if delivery_mode ∈ ["pickup", "cook", "courier"] then
        match build_checkout_items delivery_mode checkout_rows with
        | .error e => checkoutError e env
        | .ok (total, items) =>
            match validate_payment_payload env.payload.payment total env.nowYear env.nowMonth with
            | .error e => checkoutError e env
            | .ok payment_data =>
                let dishes2 := apply_stock_decrements env.dishes checkout_rows
                let order_id := next_order_id env.orders env.dateStr
                let payment := create_payment_record env.payments order_id payment_data
                  env.dateStr env.nowIso
                let order : Order :=
                  { id := order_id
                    items := items
                    total_price := total
                    districts := order_districts checkout_rows
                    city := if clean_str env.payload.city = "" then "Москва"
                      else clean_str env.payload.city
                    customer_name := if clean_str env.payload.customer_name = "" then "Гость"
                      else clean_str env.payload.customer_name
                    customer_phone := clean_str env.payload.customer_phone
                    address := clean_str env.payload.address
                    comment := clean_str env.payload.comment
                    delivery_mode := delivery_mode
                    status := "paid"
                    status_label := order_status_label "paid"
                    status_history := [⟨"paid", env.nowIso, "payment", "Оплата подтверждена"⟩]
                    created_at := env.nowIso
                    payment_id := payment.id
                    payment_status := payment.status
                    payment_summary := some
                      { method := payment.method
                        card_brand := payment.card_brand
                        card_masked := payment.card_masked
                        amount := payment.amount
                        currency := payment.currency } }
                ⟨201, none, some order, some payment,
                  dishes2, env.orders ++ [order], env.payments ++ [payment]⟩
      else checkoutError "delivery_mode_invalid" env

/-- The observable outcome of a status-update request: HTTP status, error
payload fields, the orders collection afterwards, and whether it was
re-written. -/
structure UpdateOutcome where
  http : Nat
  error : Option String
  current_status : Option String
  requested_status : Option String
  orders : List Order
  written : Bool
deriving DecidableEq, Repr

/-- The `next(...)` lookup of the target order by id. -/
def findOrder (orders : List Order) (order_id : String) : Option Order :=
  orders.find? (fun o => clean_str o.id == order_id)

/-- Replace the *first* order whose cleaned id matches (the object found by
`next(...)` — the one mutated in place before the collection is written). -/
def updateFirstOrder (f : Order → Order) : List Order → String → List Order
  | [], _ => []
  | o :: rest, oid =>
      if clean_str o.id = oid then f o :: rest else o :: updateFirstOrder f rest oid

/-- The in-place mutation applied to the target order for a valid differing
transition: status, label, history append, terminal timestamps. -/
def apply_status_update (requested actor note nowIso : String) (o : Order) : Order :=
  let o' := append_order_status_history o requested actor note nowIso
  { o' with
      status := requested
      status_label := order_status_label requested
      completed_at := if requested = "completed" then some nowIso else o'.completed_at
      cancelled_at := if requested = "cancelled" then some nowIso else o'.cancelled_at }

/-- Models `handle_update_order_status` (the request body fields `status`,
`actor`, `note` are passed in; the wall clock as `nowIso`). -/
def handle_update_order_status (orders : List Order) (order_id : String)
    (pstatus pactor pnote nowIso : String) : UpdateOutcome :=
  let requested_status := str_lower (clean_str pstatus)
  let actor := if clean_str pactor = "" then "cook" else clean_str pactor
  let note := clean_str pnote
  if requested_status ∉ ORDER_STATUS_FLOW then
    ⟨400, some "status_invalid", none, none, orders, false⟩
  else
    match findOrder orders order_id with
    | none => ⟨404, some "order_not_found", none, none, orders, false⟩
    | some target =>
        let current_status := normalize_order_status target.status
        if order_allows_status target requested_status = false then
          ⟨400, some "status_transition_invalid", some current_status, some requested_status,
            orders, false⟩
        else if current_status ≠ requested_status then
          ⟨200, none, none, none,
            updateFirstOrder (apply_status_update requested_status actor note nowIso)
              orders order_id, true⟩
        else ⟨200, none, none, none, orders, false⟩

/-- A review record (the fields `build_review_stats` reads; the float
`rating` is modelled as an exact rational). -/
structure Review where
  dish_id : Int := 0
  cook_id : Int := 0
  rating : ℚ := 0
deriving DecidableEq, Repr

/-- A `{"sum": float, "count": float}` stats entry. -/
structure RStat where
  sum : ℚ
  count : ℚ
deriving DecidableEq, Repr

/-- Python `round(q, 2)` on an exact value: round half to even at two
decimal places. -/
def roundHalfEven2 (q : ℚ) : ℚ :=
  let y := q * 100
  let f : ℤ := Int.floor y
  let r := y - f
  let n : ℤ :=
    if r < 1/2 then f
    else if r > 1/2 then f + 1
    else if f % 2 = 0 then f else f + 1
  (n : ℚ) / 100

/-- Models `round_rating`: `round(value + 1e-8, 2)` (float arithmetic
modelled as exact rational arithmetic). -/
def round_rating (value : ℚ) : ℚ :=
  roundHalfEven2 (value + 1 / 100000000)

/-- Python `int(float)` (truncation toward zero; applied only to whole
nonnegative counts here). -/
def py_int (q : ℚ) : Int := Int.tdiv q.num q.den

/-- The `dish_to_cook` dict of `build_review_stats`, as a lookup function. -/
def dish_to_cook (dishes : List Dish) : Int → Option Int :=
  dishes.foldl
    (fun m d =>
      if 0 < d.id ∧ 0 < d.cook_id then (fun k => if k = d.id then some d.cook_id else m k) else m)
    (fun _ => none)

/-- One review's effect on the `(dish_stats, cook_stats)` pair in
`build_review_stats`. -/
def review_stats_step (d2c : Int → Option Int) (st : (Int → Option RStat) × (Int → Option RStat))
    (r : Review) : (Int → Option RStat) × (Int → Option RStat) :=
  if r.dish_id ≤ 0 ∨ r.rating ≤ 0 then st
  else
    let cur := (st.1 r.dish_id).getD ⟨0, 0⟩
    let ds := fun k => if k = r.dish_id then some (RStat.mk (cur.sum + r.rating) (cur.count + 1))
      else st.1 k
    let cook_id := (d2c r.dish_id).getD 0
    if cook_id ≠ 0 then
      let curc := (st.2 cook_id).getD ⟨0, 0⟩
      (ds, fun k => if k = cook_id then some (RStat.mk (curc.sum + r.rating) (curc.count + 1))
        else st.2 k)
    else (ds, st.2)

/-- Models `build_review_stats`: fold the reviews into per-dish and per-cook
`{sum, count}` maps (dicts modelled as lookup functions). -/
def build_review_stats (dishes : List Dish) (reviews : List Review) :
    (Int → Option RStat) × (Int → Option RStat) :=
  reviews.foldl (review_stats_step (dish_to_cook dishes)) (fun _ => none, fun _ => none)

/-- A dish as enriched by `enrich_dishes_with_reviews_and_availability`:
the underlying record plus the recomputed rating, review count and
availability fields. -/
structure EnrichedDish where
  dish : Dish
  rating : ℚ
  reviews_count : Int
  is_available : Bool
  portions_available : Int
deriving DecidableEq, Repr

/-- The per-dish body of `enrich_dishes_with_reviews_and_availability`. -/
def enrich_dish (stats : Int → Option RStat) (now : Int) (d : Dish) : EnrichedDish :=
  let base :=
    match stats d.id with
    | some s =>
        if 0 < s.count then (round_rating (s.sum / s.count), py_int s.count)
        else (d.rating, (0 : Int))
    | none => (d.rating, (0 : Int))
  let avail := dish_availability d now
  { dish := d
    rating := base.1
    reviews_count := base.2
    is_available := avail.is_available
    portions_available := avail.portions_available }

/-- Models `enrich_dishes_with_reviews_and_availability`. -/
def enrich_dishes_with_reviews_and_availability (dishes : List Dish) (reviews : List Review)
    (now : Int) : List EnrichedDish :=
  dishes.map (enrich_dish (build_review_stats dishes reviews).1 now)

/-- A cart row that passes every check of the `validate_checkout_items`
loop: a well-formed dict with positive id and qty, resolving to a dish that
is live-available with enough stock. -/
def checkout_row_ok (dishes : List Dish) (now : Int) (r : Option CartRow) : Prop :=
  ∃ cr, r = some cr ∧ 0 < cr.dish_id ∧ 0 < cr.qty ∧
    ∃ dish, dishMapGet dishes cr.dish_id = some dish ∧
      (dish_availability dish now).is_available = true ∧
      cr.qty ≤ dish_portions_available dish

/-- The reviews that qualify for dish id `k` in the rating aggregation:
well-formed positive dish id matching `k`, and positive rating. -/
def qualifying_reviews (k : Int) (reviews : List Review) : List Review :=
  reviews.filter (fun r => decide (0 < r.dish_id ∧ r.dish_id = k ∧ 0 < r.rating))

/-- Componentwise addition of `{sum, count}` stats. -/
def rstat_add (a b : RStat) : RStat := ⟨a.sum + b.sum, a.count + b.count⟩

/-- The stats of a list of reviews: sum of ratings and count. -/
def rstat_of (l : List Review) : RStat := ⟨(l.map Review.rating).sum, l.length⟩

/-! ## Supporting lemmas -/

theorem hhmm_to_minutes_empty : hhmm_to_minutes "" = -1 := by decide

theorem safe_int_nonneg_eq (s : String) (h : 0 ≤ safe_int s (-1)) :
    safe_int s 0 = safe_int s (-1) := by
  unfold safe_int at h ⊢
  cases h' : strToIntOpt s with
  | none => rw [h'] at h; simp at h
  | some v => rfl

theorem hhmm_nonneg (s : String) (hv : valid_hhmm s = true) (hne : s ≠ "") :
    0 ≤ hhmm_to_minutes s := by
  have hv' := hv
  unfold valid_hhmm at hv'
  rw [if_neg hne] at hv'
  by_cases hl : (split_colon s).length ≠ 2
  · rw [if_pos hl] at hv'; exact absurd hv' (by simp)
  · rw [if_neg hl] at hv'
    simp only [decide_eq_true_eq] at hv'
    obtain ⟨h1, _, h3, _⟩ := hv'
    unfold hhmm_to_minutes
    rw [if_neg (by push_neg; exact ⟨by simp [hv], hne⟩)]
    have e0 := safe_int_nonneg_eq ((split_colon s).getD 0 "") h1
    have e1 := safe_int_nonneg_eq ((split_colon s).getD 1 "") h3
    simp only [e0, e1]
    omega

theorem dish_is_time_available_iff (d : Dish) (now : Int)
    (hf : valid_hhmm (clean_str d.available_from) = true)
    (hu : valid_hhmm (clean_str d.available_until) = true) :
    dish_is_time_available d now = true ↔
      ((clean_str d.available_from = "" ∨
          hhmm_to_minutes (clean_str d.available_from) ≤ now) ∧
        (clean_str d.available_until = "" ∨
          now ≤ hhmm_to_minutes (clean_str d.available_until))) := by
  simp only [dish_is_time_available]
  by_cases hfe : clean_str d.available_from = ""
  · by_cases hue : clean_str d.available_until = ""
    · simp only [hfe, hue, hhmm_to_minutes_empty]
      split_ifs with h1 h2 <;> simp <;> omega
    · have hum := hhmm_nonneg _ hu hue
      simp only [hfe, hhmm_to_minutes_empty]
      split_ifs with h1 h2 <;> simp [hue] <;> omega
  · by_cases hue : clean_str d.available_until = ""
    · have hfm := hhmm_nonneg _ hf hfe
      simp only [hue, hhmm_to_minutes_empty]
      split_ifs with h1 h2 <;> simp [hfe] <;> omega
    · have hfm := hhmm_nonneg _ hf hfe
      have hum := hhmm_nonneg _ hu hue
      split_ifs with h1 h2 <;> simp [hfe, hue] <;> omega

theorem luhnChecksumAux_append (xs : List Nat) (x : Nat) (i p : Nat) :
    luhnChecksumAux (xs ++ [x]) i p =
      luhnChecksumAux xs i p + (if (i + xs.length) % 2 = p then luhnDouble x else x) := by
  induction xs generalizing i with
  | nil => simp [luhnChecksumAux]
  | cons a as ih =>
      simp only [List.cons_append, luhnChecksumAux, List.length_cons, List.append_eq]
      rw [ih (i + 1)]
      have h : i + 1 + as.length = i + (as.length + 1) := by omega
      rw [h, Nat.add_assoc]

theorem luhnSumFromRight_reverse (ds : List Nat) (q : Nat) :
    luhnSumFromRight ds.reverse q = luhnChecksumAux ds 0 ((ds.length + q) % 2) := by
  induction ds using List.reverseRecOn generalizing q with
  | nil => simp [luhnSumFromRight, luhnChecksumAux]
  | append_singleton xs x ih =>
      rw [List.reverse_append, List.reverse_singleton, List.singleton_append]
      simp only [luhnSumFromRight]
      rw [ih (q + 1), luhnChecksumAux_append, List.length_append, List.length_singleton]
      have harg : (xs.length + (q + 1)) % 2 = (xs.length + 1 + q) % 2 := by omega
      rw [harg]
      by_cases hq : q % 2 = 1
      · rw [if_pos hq, if_pos (show (0 + xs.length) % 2 = (xs.length + 1 + q) % 2 by omega)]
        exact Nat.add_comm _ _
      · rw [if_neg hq, if_neg (show ¬(0 + xs.length) % 2 = (xs.length + 1 + q) % 2 by omega)]
        exact Nat.add_comm _ _

theorem valid_card_luhn_eq_spec (s : String) : valid_card_luhn s = luhn_spec s := by
  unfold valid_card_luhn luhn_spec
  split_ifs with h
  · rfl
  · have hlen : (s.data.map charDigit).length + 0 = s.length := by
      rw [List.length_map, Nat.add_zero]; rfl
    rw [luhnSumFromRight_reverse, hlen]

theorem validate_payment_ok_facts (p : PaymentPayload) (amount nowYear nowMonth : Int)
    (d : PaymentData)
    (h : validate_payment_payload (some p) amount nowYear nowMonth = .ok d) :
    13 ≤ (digits_only p.card_number).length ∧ (digits_only p.card_number).length ≤ 19 ∧
      d = { method := "card"
            card_brand := card_brand (digits_only p.card_number)
            card_masked := mask_card_number (digits_only p.card_number)
            card_last4 := str_last (digits_only p.card_number) 4
            holder := clean_str p.holder
            amount := amount
            currency := "RUB" } := by
  replace h : validate_payment_fields p amount nowYear nowMonth = .ok d := h
  unfold validate_payment_fields at h
  split_ifs at h with h1 h2 h3 h4 h5 h6 h7 h8 <;>
    first
    | exact Except.noConfusion h
    | (simp only [Except.ok.injEq] at h
       exact ⟨by omega, by omega, h.symm⟩)

theorem validate_payment_card_number_invalid (p : PaymentPayload)
    (amount nowYear nowMonth : Int)
    (hm : str_lower (clean_str p.method) = "card")
    (hbad : (digits_only p.card_number).length < 13 ∨ 19 < (digits_only p.card_number).length ∨
      valid_card_luhn (digits_only p.card_number) = false) :
    validate_payment_payload (some p) amount nowYear nowMonth = .error "card_number_invalid" := by
  show validate_payment_fields p amount nowYear nowMonth = _
  unfold validate_payment_fields
  rw [if_neg (by simp [hm])]
  by_cases hl : (digits_only p.card_number).length < 13 ∨ (digits_only p.card_number).length > 19
  · rw [if_pos hl]
  · have hluhn : valid_card_luhn (digits_only p.card_number) = false := by
      rcases hbad with h | h | h
      · exact absurd (Or.inl h) hl
      · exact absurd (Or.inr h) hl
      · exact h
    rw [if_neg hl, if_pos (by simp [hluhn])]

theorem normalize_mem_flow (s : String) :
    normalize_order_status s ∈ ORDER_STATUS_FLOW := by
  simp only [normalize_order_status]
  split_ifs with h
  · exact h
  · decide

theorem order_allows_self (t : Order) :
    order_allows_status t (normalize_order_status t.status) = true := by
  unfold order_allows_status
  simp

theorem findOrder_updateFirstOrder (f : Order → Order) (orders : List Order) (oid : String)
    (t : Order) (hpres : ∀ o, (f o).id = o.id)
    (h : findOrder orders oid = some t) :
    findOrder (updateFirstOrder f orders oid) oid = some (f t) := by
  induction orders with
  | nil => simp [findOrder] at h
  | cons o rest ih =>
      by_cases ho : clean_str o.id = oid
      · have hto : t = o := by
          simp [findOrder, List.find?_cons, ho] at h
          exact h.symm
        subst hto
        unfold updateFirstOrder
        rw [if_pos ho]
        simp [findOrder, List.find?_cons, hpres t, ho]
      · have h' : findOrder rest oid = some t := by
          simpa [findOrder, List.find?_cons, ho] using h
        unfold updateFirstOrder
        rw [if_neg ho]
        simpa [findOrder, List.find?_cons, ho] using ih h'

theorem handle_checkout_validate_error (env : CheckoutEnv) (e : String)
    (hv : validate_checkout_items env.payload.items env.dishes env.now_minutes = .error e) :
    handle_checkout env = checkoutError e env := by
  simp only [handle_checkout]
  rw [hv]

theorem handle_checkout_delivery_invalid (env : CheckoutEnv) (rows : List CheckoutRow)
    (hv : validate_checkout_items env.payload.items env.dishes env.now_minutes = .ok rows)
    (hdm : resolved_delivery_mode env.payload ∉ ["pickup", "cook", "courier"]) :
    handle_checkout env = checkoutError "delivery_mode_invalid" env := by
  simp only [handle_checkout]
  rw [hv]
  exact if_neg hdm

theorem handle_checkout_build_error (env : CheckoutEnv) (rows : List CheckoutRow) (e : String)
    (hv : validate_checkout_items env.payload.items env.dishes env.now_minutes = .ok rows)
    (hdm : resolved_delivery_mode env.payload ∈ ["pickup", "cook", "courier"])
    (hb : build_checkout_items (resolved_delivery_mode env.payload) rows = .error e) :
    handle_checkout env = checkoutError e env := by
  simp [handle_checkout, hv, hdm, hb]

theorem handle_checkout_payment_error (env : CheckoutEnv) (rows : List CheckoutRow)
    (total : Int) (items : List LineItem) (e : String)
    (hv : validate_checkout_items env.payload.items env.dishes env.now_minutes = .ok rows)
    (hdm : resolved_delivery_mode env.payload ∈ ["pickup", "cook", "courier"])
    (hb : build_checkout_items (resolved_delivery_mode env.payload) rows = .ok (total, items))
    (hp : validate_payment_payload env.payload.payment total env.nowYear env.nowMonth = .error e) :
    handle_checkout env = checkoutError e env := by
  simp [handle_checkout, hv, hdm, hb, hp]

theorem handle_checkout_success_shape (env : CheckoutEnv) (rows : List CheckoutRow)
    (total : Int) (items : List LineItem) (pdata : PaymentData)
    (hv : validate_checkout_items env.payload.items env.dishes env.now_minutes = .ok rows)
    (hdm : resolved_delivery_mode env.payload ∈ ["pickup", "cook", "courier"])
    (hb : build_checkout_items (resolved_delivery_mode env.payload) rows = .ok (total, items))
    (hp : validate_payment_payload env.payload.payment total env.nowYear env.nowMonth = .ok pdata) :
    (handle_checkout env).http = 201 ∧ (handle_checkout env).error = none ∧
      (handle_checkout env).dishes = apply_stock_decrements env.dishes rows := by
  simp [handle_checkout, hv, hdm, hb, hp]

theorem handle_checkout_cases (env : CheckoutEnv) :
    (∃ e, handle_checkout env = checkoutError e env) ∨ (handle_checkout env).error = none := by
  cases hv : validate_checkout_items env.payload.items env.dishes env.now_minutes with
  | error e => exact Or.inl ⟨e, handle_checkout_validate_error env e hv⟩
  | ok rows =>
      by_cases hdm : resolved_delivery_mode env.payload ∈ ["pickup", "cook", "courier"]
      · cases hb : build_checkout_items (resolved_delivery_mode env.payload) rows with
        | error e => exact Or.inl ⟨e, handle_checkout_build_error env rows e hv hdm hb⟩
        | ok ti =>
            obtain ⟨total, items⟩ := ti
            cases hp : validate_payment_payload env.payload.payment total env.nowYear env.nowMonth with
            | error e =>
                exact Or.inl ⟨e, handle_checkout_payment_error env rows total items e hv hdm hb hp⟩
            | ok pdata =>
                exact Or.inr (handle_checkout_success_shape env rows total items pdata hv hdm hb hp).2.1
      · exact Or.inl ⟨_, handle_checkout_delivery_invalid env rows hv hdm⟩

theorem build_checkout_items_not_available (dm : String) (rows : List CheckoutRow)
    (h : ∃ row ∈ rows, dm ∉ row.dish.delivery) :
    build_checkout_items dm rows = .error "delivery_mode_not_available" := by
  induction rows with
  | nil => simp at h
  | cons r rest ih =>
      obtain ⟨row, hmem, hrow⟩ := h
      rcases List.mem_cons.mp hmem with rfl | hmem'
      · simp only [build_checkout_items]
        rw [if_neg hrow]
      · by_cases hr : dm ∈ r.dish.delivery
        · simp only [build_checkout_items]
          rw [if_pos hr, ih ⟨row, hmem', hrow⟩]
        · simp only [build_checkout_items]
          rw [if_neg hr]

theorem validate_checkout_items_nonempty (dishes : List Dish) (now : Int)
    (rows : List (Option CartRow)) (hne : rows ≠ []) :
    validate_checkout_items (some rows) dishes now = validate_items_loop dishes now rows := by
  cases rows with
  | nil => exact absurd rfl hne
  | cons r rs => rfl

theorem validate_items_loop_prefix_ok (dishes : List Dish) (now : Int)
    (pre l : List (Option CartRow)) (e : String)
    (hpre : ∀ r ∈ pre, checkout_row_ok dishes now r)
    (hl : validate_items_loop dishes now l = .error e) :
    validate_items_loop dishes now (pre ++ l) = .error e := by
  induction pre with
  | nil => simpa using hl
  | cons r rest ih =>
      obtain ⟨cr, rfl, hid, hq, dish, hmap, hav, hle⟩ := hpre (r := r) (by simp)
      have h1 : ¬(cr.dish_id ≤ 0 ∨ cr.qty ≤ 0) := by omega
      have h2 : ¬((dish_availability dish now).is_available = false) := by simp [hav]
      have h3 : ¬(cr.qty > dish_portions_available dish) := by omega
      have hrest := ih (fun x hx => hpre x (List.mem_cons_of_mem _ hx))
      simp only [List.cons_append]
      simp [validate_items_loop, h1, hmap, h2, h3, hrest, Except.map]

theorem dishMapGet_pos (ds : List Dish) (i : Int) (d : Dish)
    (h : dishMapGet ds i = some d) : 0 < i ∧ d.id = i := by
  induction ds with
  | nil => cases h
  | cons x rest ih =>
      simp only [dishMapGet] at h
      cases hr : dishMapGet rest i with
      | some y =>
          rw [hr] at h
          have hyd : y = d := by injection h
          subst hyd
          exact ih hr
      | none =>
          rw [hr] at h
          split_ifs at h with hc
          obtain ⟨h1, h2⟩ := hc
          cases h
          exact ⟨h2 ▸ h1, h2⟩

theorem dishMapGet_isSome_any (ds : List Dish) (i : Int) :
    (dishMapGet ds i).isSome = ds.any (fun x => decide (0 < x.id ∧ x.id = i)) := by
  induction ds with
  | nil => rfl
  | cons d rest ih =>
      rw [List.any_cons, ← ih]
      simp only [dishMapGet]
      cases hr : dishMapGet rest i with
      | some x => simp
      | none =>
          by_cases hc : 0 < d.id ∧ d.id = i
          · rw [if_pos hc]
            have hdec : decide (0 < d.id ∧ d.id = i) = true := by simpa using hc
            rw [hdec]
            rfl
          · rw [if_neg hc]
            have hdec : decide (0 < d.id ∧ d.id = i) = false := by simpa using hc
            rw [hdec]
            rfl

theorem dishMapGet_updateLastMatch (f : Dish → Dish) (hpres : ∀ x, (f x).id = x.id)
    (ds : List Dish) (i : Int) :
    dishMapGet (updateLastMatch f ds i) i = (dishMapGet ds i).map f := by
  induction ds with
  | nil => rfl
  | cons d rest ih =>
      simp only [updateLastMatch]
      by_cases hany : rest.any (fun x => decide (0 < x.id ∧ x.id = i)) = true
      · rw [if_pos hany]
        have hsome : (dishMapGet rest i).isSome = true := by
          rw [dishMapGet_isSome_any]; exact hany
        obtain ⟨x, hx⟩ := Option.isSome_iff_exists.mp hsome
        simp only [dishMapGet, ih, hx, Option.map_some']
      · rw [if_neg hany]
        have hnone : dishMapGet rest i = none := by
          cases hr : dishMapGet rest i with
          | none => rfl
          | some x => exact absurd (by rw [← dishMapGet_isSome_any, hr]; rfl) hany
        by_cases hc : 0 < d.id ∧ d.id = i
        · obtain ⟨hc1, hc2⟩ := hc
          rw [if_pos ⟨hc1, hc2⟩]
          simp [dishMapGet, hnone, hpres, hc1, hc2]
        · rw [if_neg hc]
          simp [dishMapGet, hnone, hc]

theorem validate_two_rows (dishes : List Dish) (now : Int) (did q1 q2 : Int) (d : Dish)
    (hd : dishMapGet dishes did = some d)
    (htime : dish_is_time_available d now = true)
    (hq1 : 0 < q1) (hq2 : 0 < q2)
    (hle1 : q1 ≤ dish_portions_available d) (hle2 : q2 ≤ dish_portions_available d) :
    validate_checkout_items (some [some ⟨did, q1⟩, some ⟨did, q2⟩]) dishes now =
      .ok [⟨d, q1⟩, ⟨d, q2⟩] := by
  have hpos : 0 < did := (dishMapGet_pos dishes did d hd).1
  have hpa : 0 < dish_portions_available d := by omega
  have hav : (dish_availability d now).is_available = true := by
    show (decide (0 < dish_portions_available d) && dish_is_time_available d now) = true
    rw [htime]
    simp [hpa]
  have h1 : ¬(did ≤ 0 ∨ q1 ≤ 0) := by omega
  have h2 : ¬(q1 > dish_portions_available d) := by omega
  have h3 : ¬(did ≤ 0 ∨ q2 ≤ 0) := by omega
  have h4 : ¬(q2 > dish_portions_available d) := by omega
  have h5 : ¬((dish_availability d now).is_available = false) := by simp [hav]
  show validate_items_loop dishes now [some ⟨did, q1⟩, some ⟨did, q2⟩] = _
  simp [validate_items_loop, hd, h1, h2, h3, h4, h5, Except.map]

theorem card_brand_eq_of_take4 (s1 s2 : String) (h : str_take s1 4 = str_take s2 4) :
    card_brand s1 = card_brand s2 := by
  have hdata : s1.data.take 4 = s2.data.take 4 := congrArg String.data h
  have h1 : s1.data.take 1 = s2.data.take 1 := by
    have h' := congrArg (List.take 1) hdata
    rw [List.take_take, List.take_take] at h'
    simpa using h'
  have h2 : s1.data.take 2 = s2.data.take 2 := by
    have h' := congrArg (List.take 2) hdata
    rw [List.take_take, List.take_take] at h'
    simpa using h'
  simp only [card_brand, h1, h2, hdata]

theorem review_stats_step_fst_qual (d2c : Int → Option Int)
    (st : (Int → Option RStat) × (Int → Option RStat)) (r : Review) (k : Int)
    (h1 : 0 < r.dish_id) (h2 : r.dish_id = k) (h3 : 0 < r.rating) :
    (review_stats_step d2c st r).1 k =
      some ⟨((st.1 k).getD ⟨0, 0⟩).sum + r.rating, ((st.1 k).getD ⟨0, 0⟩).count + 1⟩ := by
  unfold review_stats_step
  rw [if_neg (by push_neg; exact ⟨h1, h3⟩)]
  by_cases hc : (d2c r.dish_id).getD 0 ≠ 0
  · rw [if_pos hc]
    simp [h2]
  · rw [if_neg hc]
    simp [h2]

theorem review_stats_step_fst_nonqual (d2c : Int → Option Int)
    (st : (Int → Option RStat) × (Int → Option RStat)) (r : Review) (k : Int)
    (hq : ¬(0 < r.dish_id ∧ r.dish_id = k ∧ 0 < r.rating)) :
    (review_stats_step d2c st r).1 k = st.1 k := by
  unfold review_stats_step
  by_cases hg : r.dish_id ≤ 0 ∨ r.rating ≤ 0
  · rw [if_pos hg]
  · rw [if_neg hg]
    push_neg at hg
    have hne : ¬(k = r.dish_id) := fun hk => hq ⟨hg.1, hk.symm, hg.2⟩
    by_cases hc : (d2c r.dish_id).getD 0 ≠ 0
    · rw [if_pos hc]
      simp [hne]
    · rw [if_neg hc]
      simp [hne]

theorem fold_review_stats_fst (d2c : Int → Option Int) (reviews : List Review)
    (st : (Int → Option RStat) × (Int → Option RStat)) (k : Int) :
    (reviews.foldl (review_stats_step d2c) st).1 k =
      if qualifying_reviews k reviews = [] then st.1 k
      else some (rstat_add ((st.1 k).getD ⟨0, 0⟩) (rstat_of (qualifying_reviews k reviews))) := by
  induction reviews generalizing st with
  | nil => simp [qualifying_reviews]
  | cons r rest ih =>
      rw [List.foldl_cons, ih]
      by_cases hq : 0 < r.dish_id ∧ r.dish_id = k ∧ 0 < r.rating
      · obtain ⟨h1, h2, h3⟩ := hq
        have hcond : decide (0 < r.dish_id ∧ r.dish_id = k ∧ 0 < r.rating) = true :=
          decide_eq_true ⟨h1, h2, h3⟩
        have hqual : qualifying_reviews k (r :: rest) = r :: qualifying_reviews k rest := by
          simp [qualifying_reviews, List.filter_cons, hcond]
          exact ⟨h1, h2, h3⟩
        rw [hqual, review_stats_step_fst_qual d2c st r k h1 h2 h3]
        by_cases hrest : qualifying_reviews k rest = []
        · rw [if_pos hrest, if_neg (by simp)]
          simp [hrest, rstat_add, rstat_of]
        · rw [if_neg hrest, if_neg (by simp)]
          simp only [Option.getD_some, rstat_add, rstat_of, List.map_cons, List.sum_cons,
            List.length_cons, Option.some.injEq, RStat.mk.injEq]
          constructor
          · push_cast
            ring
          · push_cast
            ring
      · have hqual : qualifying_reviews k (r :: rest) = qualifying_reviews k rest := by
          simp only [qualifying_reviews, List.filter_cons]
          rw [if_neg (by simpa using hq)]
        rw [hqual, review_stats_step_fst_nonqual d2c st r k hq]

theorem py_int_natCast (n : ℕ) : py_int (n : ℚ) = n := by
  unfold py_int
  rw [Rat.num_natCast, Rat.den_natCast]
  simp

theorem round_rating_four : round_rating (4 : ℚ) = 4 := by
  simp only [round_rating, roundHalfEven2]
  have hy : ((4 : ℚ) + 1 / 100000000) * 100 = 400 + 1 / 1000000 := by norm_num
  rw [hy]
  have hfl : ⌊(400 : ℚ) + 1 / 1000000⌋ = (400 : ℤ) := by
    rw [Int.floor_eq_iff]
    constructor
    · push_cast
      norm_num
    · push_cast
      norm_num
  rw [hfl]
  norm_num

/-! ## Claim theorems -/

/-- C2: a dish's computed `is_available` flag is true iff it has positive
remaining portions and the current time lies inside the optional
`available_from`/`available_until` window, both bounds inclusive (for
window fields that are empty or valid `HH:MM` strings); and a dish whose
`portions_available` is 0 is never available, regardless of the window. -/
theorem availability_iff_stock_and_window (d : Dish) (now : Int)
    (hf : valid_hhmm (clean_str d.available_from) = true)
    (hu : valid_hhmm (clean_str d.available_until) = true) :
    ((dish_availability d now).is_available = true ↔
      (0 < dish_portions_available d ∧
        (clean_str d.available_from = "" ∨
          hhmm_to_minutes (clean_str d.available_from) ≤ now) ∧
        (clean_str d.available_until = "" ∨
          now ≤ hhmm_to_minutes (clean_str d.available_until)))) ∧
    (d.portions_available = 0 → (dish_availability d now).is_available = false) := by
  constructor
  · show (decide (0 < dish_portions_available d) && dish_is_time_available d now) = true ↔ _
    rw [Bool.and_eq_true, decide_eq_true_eq, dish_is_time_available_iff d now hf hu]
  · intro h0
    show (decide (0 < dish_portions_available d) && dish_is_time_available d now) = false
    have : dish_portions_available d = 0 := by unfold dish_portions_available; omega
    simp [this]

/-- Witness for C2 at a concrete dish and time. -/
theorem availability_iff_stock_and_window_witness :
    valid_hhmm (clean_str ({ portions_available := 3, available_from := "10:00", available_until := "18:00" } : Dish).available_from) = true ∧
    ((dish_availability { portions_available := 3, available_from := "10:00", available_until := "18:00" } 600).is_available = true ↔
      (0 < dish_portions_available { portions_available := 3, available_from := "10:00", available_until := "18:00" } ∧
        (clean_str ({ portions_available := 3, available_from := "10:00", available_until := "18:00" } : Dish).available_from = "" ∨
          hhmm_to_minutes (clean_str ({ portions_available := 3, available_from := "10:00", available_until := "18:00" } : Dish).available_from) ≤ 600) ∧
        (clean_str ({ portions_available := 3, available_from := "10:00", available_until := "18:00" } : Dish).available_until = "" ∨
          (600 : Int) ≤ hhmm_to_minutes (clean_str ({ portions_available := 3, available_from := "10:00", available_until := "18:00" } : Dish).available_until)))) ∧
    (({ portions_available := 3, available_from := "10:00", available_until := "18:00" } : Dish).portions_available = 0 →
      (dish_availability { portions_available := 3, available_from := "10:00", available_until := "18:00" } 600).is_available = false) :=
  ⟨by decide,
    availability_iff_stock_and_window
      { portions_available := 3, available_from := "10:00", available_until := "18:00" } 600
      (by decide) (by decide)⟩

/-- C5: the card-number check is exactly the standard mod-10 Luhn checksum
(double every second digit from the right, subtract 9 from doubles above 9,
accept iff the sum is divisible by 10); it accepts "4242424242424242" and
rejects "4242424242424241"; and payment validation rejects with
`card_number_invalid` any card number whose digit string (after stripping
non-digits) has fewer than 13 or more than 19 digits or fails the Luhn
check. -/
theorem luhn_check_and_card_number_validation :
    (∀ s : String, valid_card_luhn s = luhn_spec s) ∧
    valid_card_luhn "4242424242424242" = true ∧
    valid_card_luhn "4242424242424241" = false ∧
    (∀ (p : PaymentPayload) (amount nowYear nowMonth : Int),
      str_lower (clean_str p.method) = "card" →
      ((digits_only p.card_number).length < 13 ∨ 19 < (digits_only p.card_number).length ∨
        valid_card_luhn (digits_only p.card_number) = false) →
      validate_payment_payload (some p) amount nowYear nowMonth =
        .error "card_number_invalid") :=
  ⟨valid_card_luhn_eq_spec, by decide, by decide,
    fun p amount ny nm hm hbad => validate_payment_card_number_invalid p amount ny nm hm hbad⟩

/-- Witness for C5: a digits-only card number of length 4 is rejected with
`card_number_invalid`. -/
theorem luhn_check_and_card_number_validation_witness :
    str_lower (clean_str ({ method := "card", card_number := "1234", exp_month := 12, exp_year := 2030, cvc := "123", holder := "AB" } : PaymentPayload).method) = "card" ∧
    ((digits_only ({ method := "card", card_number := "1234", exp_month := 12, exp_year := 2030, cvc := "123", holder := "AB" } : PaymentPayload).card_number).length < 13 ∨
      19 < (digits_only ({ method := "card", card_number := "1234", exp_month := 12, exp_year := 2030, cvc := "123", holder := "AB" } : PaymentPayload).card_number).length ∨
      valid_card_luhn (digits_only ({ method := "card", card_number := "1234", exp_month := 12, exp_year := 2030, cvc := "123", holder := "AB" } : PaymentPayload).card_number) = false) ∧
    validate_payment_payload (some { method := "card", card_number := "1234", exp_month := 12, exp_year := 2030, cvc := "123", holder := "AB" }) 100 2026 10 = .error "card_number_invalid" :=
  ⟨by decide, by decide,
    luhn_check_and_card_number_validation.2.2.2
      { method := "card", card_number := "1234", exp_month := 12, exp_year := 2030, cvc := "123", holder := "AB" }
      100 2026 10 (by decide) (by decide)⟩

/-- C3: a status-update request whose requested status equals the order's
current (normalized) status always succeeds with HTTP 200 as an idempotent
no-op: the orders collection is left exactly as it was (so the order's
status and status history, including its length, are unchanged) and nothing
is written to storage. -/
theorem self_transition_is_noop (orders : List Order)
    (oid pstatus pactor pnote nowIso : String) (t : Order)
    (hfind : findOrder orders oid = some t)
    (hreq : str_lower (clean_str pstatus) = normalize_order_status t.status) :
    handle_update_order_status orders oid pstatus pactor pnote nowIso =
      ⟨200, none, none, none, orders, false⟩ := by
  have hmem := normalize_mem_flow t.status
  have hallow := order_allows_self t
  simp [handle_update_order_status, hreq, hfind, hmem, hallow]

/-- Witness for C3 on a concrete one-order store. -/
theorem self_transition_is_noop_witness :
    findOrder [{ id := "ORD-1", status := "paid", status_history := [⟨"paid", "t0", "payment", ""⟩] }] "ORD-1" = some { id := "ORD-1", status := "paid", status_history := [⟨"paid", "t0", "payment", ""⟩] } ∧
    handle_update_order_status [{ id := "ORD-1", status := "paid", status_history := [⟨"paid", "t0", "payment", ""⟩] }] "ORD-1" "paid" "" "" "t1" =
      ⟨200, none, none, none, [{ id := "ORD-1", status := "paid", status_history := [⟨"paid", "t0", "payment", ""⟩] }], false⟩ :=
  ⟨by decide,
    self_transition_is_noop
      [{ id := "ORD-1", status := "paid", status_history := [⟨"paid", "t0", "payment", ""⟩] }]
      "ORD-1" "paid" "" "" "t1"
      { id := "ORD-1", status := "paid", status_history := [⟨"paid", "t0", "payment", ""⟩] }
      (by decide) (by decide)⟩

/-- C4: for an order in (normalized) status `ready` with delivery mode
`pickup`, requesting `delivering` fails with `status_transition_invalid`
reporting both the current and requested status and writes nothing, while
requesting `completed` succeeds with HTTP 200: the stored order's status
becomes `completed`, its history becomes the normalized old history with
exactly one new event appended (actor defaulting to `"cook"`), and
`completed_at` is stamped. -/
theorem ready_pickup_transition_rules (orders : List Order)
    (oid pactor pnote nowIso : String) (t : Order)
    (hfind : findOrder orders oid = some t)
    (hst : normalize_order_status t.status = "ready")
    (hdm : clean_str t.delivery_mode = "pickup")
    (hpa : clean_str pactor = pactor) (hpn : clean_str pnote = pnote) :
    handle_update_order_status orders oid "delivering" pactor pnote nowIso =
      ⟨400, some "status_transition_invalid", some "ready", some "delivering", orders, false⟩ ∧
    (handle_update_order_status orders oid "completed" pactor pnote nowIso).http = 200 ∧
    (∃ t', findOrder (handle_update_order_status orders oid "completed" pactor pnote nowIso).orders oid = some t' ∧
      t'.status = "completed" ∧
      t'.status_history = order_status_history t nowIso ++
        [⟨"completed", nowIso, (if pactor = "" then "cook" else pactor), pnote⟩] ∧
      (t.status_history ≠ [] → t'.status_history.length = t.status_history.length + 1) ∧
      t'.completed_at = some nowIso) := by
  have hreqd : str_lower (clean_str "delivering") = "delivering" := by decide
  have hreqc : str_lower (clean_str "completed") = "completed" := by decide
  have hmemd : ("delivering" : String) ∈ ORDER_STATUS_FLOW := by decide
  have hmemc : ("completed" : String) ∈ ORDER_STATUS_FLOW := by decide
  have hallowd : order_allows_status t "delivering" = false := by
    unfold order_allows_status
    simp [hst, hdm]
  have hallowc : order_allows_status t "completed" = true := by
    unfold order_allows_status
    simp [hst, hdm]
    decide
  have hby : (if clean_str (if clean_str pactor = "" then "cook" else clean_str pactor) = "" then "system"
      else clean_str (if clean_str pactor = "" then "cook" else clean_str pactor)) =
      (if pactor = "" then "cook" else pactor) := by
    by_cases hpe : pactor = ""
    · subst hpe
      rw [show clean_str "" = "" from by decide, if_pos rfl]
      decide
    · rw [hpa, if_neg hpe, hpa, if_neg hpe]
  refine ⟨?_, ?_, ?_⟩
  · simp [handle_update_order_status, hreqd, hfind, hmemd, hallowd, hst]
  · simp [handle_update_order_status, hreqc, hfind, hmemc, hallowc, hst]
  · refine ⟨apply_status_update "completed"
      (if clean_str pactor = "" then "cook" else clean_str pactor) (clean_str pnote) nowIso t,
      ?_, rfl, ?_, ?_, rfl⟩
    · simp only [handle_update_order_status, hreqc, hfind]
      rw [if_neg (by simp [hmemc])]
      simp only [hallowc]
      rw [if_neg (by simp), if_pos (by rw [hst]; decide)]
      exact findOrder_updateFirstOrder _ orders oid t (fun o => rfl) hfind
    · simp only [apply_status_update, append_order_status_history]
      rw [hpn, hby, show normalize_order_status "completed" = "completed" from by decide]
      rw [hpn]
    · intro hne
      simp only [apply_status_update, append_order_status_history, List.length_append,
        List.length_singleton]
      unfold order_status_history
      rw [if_pos hne, List.length_map]

/-- Witness for C4 on a concrete one-order store. -/
theorem ready_pickup_transition_rules_witness :
    findOrder [{ id := "ORD-2", status := "ready", delivery_mode := "pickup", status_history := [⟨"paid", "t0", "payment", ""⟩], created_at := "t0" }] "ORD-2" = some { id := "ORD-2", status := "ready", delivery_mode := "pickup", status_history := [⟨"paid", "t0", "payment", ""⟩], created_at := "t0" } ∧
    handle_update_order_status [{ id := "ORD-2", status := "ready", delivery_mode := "pickup", status_history := [⟨"paid", "t0", "payment", ""⟩], created_at := "t0" }] "ORD-2" "delivering" "" "" "t1" =
      ⟨400, some "status_transition_invalid", some "ready", some "delivering", [{ id := "ORD-2", status := "ready", delivery_mode := "pickup", status_history := [⟨"paid", "t0", "payment", ""⟩], created_at := "t0" }], false⟩ ∧
    (handle_update_order_status [{ id := "ORD-2", status := "ready", delivery_mode := "pickup", status_history := [⟨"paid", "t0", "payment", ""⟩], created_at := "t0" }] "ORD-2" "completed" "" "" "t1").http = 200 :=
  ⟨by decide,
    (ready_pickup_transition_rules
      [{ id := "ORD-2", status := "ready", delivery_mode := "pickup", status_history := [⟨"paid", "t0", "payment", ""⟩], created_at := "t0" }]
      "ORD-2" "" "" "t1"
      { id := "ORD-2", status := "ready", delivery_mode := "pickup", status_history := [⟨"paid", "t0", "payment", ""⟩], created_at := "t0" }
      (by decide) (by decide) (by decide) (by decide) (by decide)).1,
    (ready_pickup_transition_rules
      [{ id := "ORD-2", status := "ready", delivery_mode := "pickup", status_history := [⟨"paid", "t0", "payment", ""⟩], created_at := "t0" }]
      "ORD-2" "" "" "t1"
      { id := "ORD-2", status := "ready", delivery_mode := "pickup", status_history := [⟨"paid", "t0", "payment", ""⟩], created_at := "t0" }
      (by decide) (by decide) (by decide) (by decide) (by decide)).2.1⟩

/-- C1: whenever checkout fails (cart validation, delivery mode or payment
validation), the response carries that error with HTTP 400, no order or
payment is created, and all three persisted collections are left exactly as
they were; in particular a cart validation error (such as
`dish_stock_not_enough` on a partially out-of-stock cart) and a payment
error each abort the whole checkout with no stock mutation. -/
theorem checkout_failure_is_atomic :
    (∀ (env : CheckoutEnv) (e : String), (handle_checkout env).error = some e →
      (handle_checkout env).http = 400 ∧ (handle_checkout env).order = none ∧
      (handle_checkout env).payment = none ∧ (handle_checkout env).dishes = env.dishes ∧
      (handle_checkout env).orders = env.orders ∧
      (handle_checkout env).payments = env.payments) ∧
    (∀ (env : CheckoutEnv) (e : String),
      validate_checkout_items env.payload.items env.dishes env.now_minutes = .error e →
      (handle_checkout env).error = some e) ∧
    (∀ (env : CheckoutEnv) (rows : List CheckoutRow) (total : Int) (items : List LineItem)
      (e : String),
      validate_checkout_items env.payload.items env.dishes env.now_minutes = .ok rows →
      resolved_delivery_mode env.payload ∈ ["pickup", "cook", "courier"] →
      build_checkout_items (resolved_delivery_mode env.payload) rows = .ok (total, items) →
      validate_payment_payload env.payload.payment total env.nowYear env.nowMonth = .error e →
      (handle_checkout env).error = some e) := by
  refine ⟨?_, ?_, ?_⟩
  · intro env e herr
    rcases handle_checkout_cases env with ⟨e', hs⟩ | hnone
    · rw [hs]
      exact ⟨rfl, rfl, rfl, rfl, rfl, rfl⟩
    · rw [herr] at hnone
      cases hnone
  · intro env e hv
    rw [handle_checkout_validate_error env e hv]
    rfl
  · intro env rows total items e hv hdm hb hp
    rw [handle_checkout_payment_error env rows total items e hv hdm hb hp]
    rfl

/-- Witness for C1: an empty-items checkout returns `items_required` and
leaves the store untouched. -/
theorem checkout_failure_is_atomic_witness :
    validate_checkout_items ({} : CheckoutEnv).payload.items ({} : CheckoutEnv).dishes ({} : CheckoutEnv).now_minutes = .error "items_required" ∧
    (handle_checkout {}).error = some "items_required" ∧
    (handle_checkout {}).dishes = ({} : CheckoutEnv).dishes :=
  ⟨rfl, checkout_failure_is_atomic.2.1 {} "items_required" rfl,
    (checkout_failure_is_atomic.1 {} "items_required"
      (checkout_failure_is_atomic.2.1 {} "items_required" rfl)).2.2.2.1⟩

/-- Counterexample for C6: with a valid cart, the unknown delivery mode
`"teleport"` makes checkout fail with error code `delivery_mode_invalid`,
not `delivery_mode_not_available` as the claim states. -/
theorem delivery_mode_error_codes_cex :
    (handle_checkout { payload := { items := some [some ⟨1, 1⟩], delivery_mode := "teleport" }, dishes := [{ id := 1, price := 100, delivery := ["pickup"], portions_available := 5 }] }).error = some "delivery_mode_invalid" ∧
    some "delivery_mode_invalid" ≠ some "delivery_mode_not_available" :=
  ⟨by decide, by decide⟩

/-- C6 (amended): with a validated cart, a delivery mode outside
`{pickup, cook, courier}` fails the checkout with `delivery_mode_invalid`,
while a mode in that set that is missing from some validated line's dish
delivery set fails it with `delivery_mode_not_available`; in both cases no
order or payment is created and no collection changes. -/
theorem delivery_mode_error_codes (env : CheckoutEnv) (rows : List CheckoutRow)
    (hv : validate_checkout_items env.payload.items env.dishes env.now_minutes = .ok rows) :
    (resolved_delivery_mode env.payload ∉ ["pickup", "cook", "courier"] →
      handle_checkout env = checkoutError "delivery_mode_invalid" env) ∧
    (resolved_delivery_mode env.payload ∈ ["pickup", "cook", "courier"] →
      (∃ row ∈ rows, resolved_delivery_mode env.payload ∉ row.dish.delivery) →
      handle_checkout env = checkoutError "delivery_mode_not_available" env) := by
  constructor
  · intro hdm
    exact handle_checkout_delivery_invalid env rows hv hdm
  · intro hdm hrow
    exact handle_checkout_build_error env rows _ hv hdm
      (build_checkout_items_not_available _ rows hrow)

/-- Witness for C6 (amended): delivery mode `pickup` is requested but the
cart's only dish offers only `cook` delivery. -/
theorem delivery_mode_error_codes_witness :
    validate_checkout_items ({ payload := { items := some [some ⟨1, 1⟩], delivery_mode := "pickup" }, dishes := [{ id := 1, price := 100, delivery := ["cook"], portions_available := 5 }] } : CheckoutEnv).payload.items ({ payload := { items := some [some ⟨1, 1⟩], delivery_mode := "pickup" }, dishes := [{ id := 1, price := 100, delivery := ["cook"], portions_available := 5 }] } : CheckoutEnv).dishes ({ payload := { items := some [some ⟨1, 1⟩], delivery_mode := "pickup" }, dishes := [{ id := 1, price := 100, delivery := ["cook"], portions_available := 5 }] } : CheckoutEnv).now_minutes = .ok [⟨{ id := 1, price := 100, delivery := ["cook"], portions_available := 5 }, 1⟩] ∧
    handle_checkout { payload := { items := some [some ⟨1, 1⟩], delivery_mode := "pickup" }, dishes := [{ id := 1, price := 100, delivery := ["cook"], portions_available := 5 }] } =
      checkoutError "delivery_mode_not_available" { payload := { items := some [some ⟨1, 1⟩], delivery_mode := "pickup" }, dishes := [{ id := 1, price := 100, delivery := ["cook"], portions_available := 5 }] } :=
  ⟨rfl,
    (delivery_mode_error_codes
      { payload := { items := some [some ⟨1, 1⟩], delivery_mode := "pickup" }, dishes := [{ id := 1, price := 100, delivery := ["cook"], portions_available := 5 }] }
      [⟨{ id := 1, price := 100, delivery := ["cook"], portions_available := 5 }, 1⟩]
      rfl).2 (by decide) (by decide)⟩

/-- Counterexample for C7: checkout of a cart whose line references the
unknown dish id 42 fails with error code `dish_not_found` but with HTTP
status 400, not the 404 the claim states. -/
theorem dish_not_found_status_cex :
    (handle_checkout { payload := { items := some [some ⟨42, 1⟩] } }).http = 400 ∧
    (handle_checkout { payload := { items := some [some ⟨42, 1⟩] } }).error = some "dish_not_found" ∧
    (400 : Nat) ≠ 404 :=
  ⟨by decide, by decide, by decide⟩

/-- C7 (amended): a checkout cart whose first failing line references a
dish id that resolves to no dish (all earlier lines being valid) fails with
error code `dish_not_found`, reported as a bad-request — HTTP 400, not 404 —
with no state change. -/
theorem dish_not_found_bad_request (env : CheckoutEnv) (pre : List (Option CartRow))
    (bad : CartRow) (rest : List (Option CartRow))
    (hitems : env.payload.items = some (pre ++ some bad :: rest))
    (hpre : ∀ r ∈ pre, checkout_row_ok env.dishes env.now_minutes r)
    (hbad1 : 0 < bad.dish_id) (hbad2 : 0 < bad.qty)
    (hmiss : dishMapGet env.dishes bad.dish_id = none) :
    handle_checkout env = checkoutError "dish_not_found" env ∧
    (handle_checkout env).http = 400 := by
  have hloop : validate_items_loop env.dishes env.now_minutes (some bad :: rest) =
      .error "dish_not_found" := by
    simp only [validate_items_loop]
    rw [if_neg (by omega), hmiss]
  have hv : validate_checkout_items env.payload.items env.dishes env.now_minutes =
      .error "dish_not_found" := by
    rw [hitems, validate_checkout_items_nonempty _ _ _ (by simp)]
    exact validate_items_loop_prefix_ok _ _ pre _ _ hpre hloop
  refine ⟨handle_checkout_validate_error env _ hv, ?_⟩
  rw [handle_checkout_validate_error env _ hv]
  rfl

/-- Witness for C7 (amended): a two-line cart whose first line is valid and
whose second line references the unknown dish id 42. -/
theorem dish_not_found_bad_request_witness :
    ({ payload := { items := some [some ⟨1, 1⟩, some ⟨42, 1⟩] }, dishes := [{ id := 1, price := 100, delivery := ["pickup"], portions_available := 5 }] } : CheckoutEnv).payload.items = some ([some ⟨1, 1⟩] ++ some ⟨42, 1⟩ :: []) ∧
    handle_checkout { payload := { items := some [some ⟨1, 1⟩, some ⟨42, 1⟩] }, dishes := [{ id := 1, price := 100, delivery := ["pickup"], portions_available := 5 }] } =
      checkoutError "dish_not_found" { payload := { items := some [some ⟨1, 1⟩, some ⟨42, 1⟩] }, dishes := [{ id := 1, price := 100, delivery := ["pickup"], portions_available := 5 }] } :=
  ⟨by decide,
    (dish_not_found_bad_request
      { payload := { items := some [some ⟨1, 1⟩, some ⟨42, 1⟩] }, dishes := [{ id := 1, price := 100, delivery := ["pickup"], portions_available := 5 }] }
      [some ⟨1, 1⟩] ⟨42, 1⟩ []
      (by decide)
      (by intro r hr
          refine ⟨⟨1, 1⟩, by simpa using hr, by decide, by decide,
            { id := 1, price := 100, delivery := ["pickup"], portions_available := 5 }, by decide, by decide, by decide⟩)
      (by decide) (by decide) (by decide)).1⟩

/-- C10: a cart with two lines for the same dish, each individually within
the available stock but jointly exceeding it, passes cart validation (each
line is checked against the undecremented stock, so no
`dish_stock_not_enough` is raised), and when the checkout succeeds the
dish's stored `portions_available` is floored at 0 instead of going
negative — more portions are sold than were available. -/
theorem duplicate_lines_oversell (env : CheckoutEnv) (did q1 q2 : Int) (d : Dish)
    (hitems : env.payload.items = some [some ⟨did, q1⟩, some ⟨did, q2⟩])
    (hd : dishMapGet env.dishes did = some d)
    (htime : dish_is_time_available d env.now_minutes = true)
    (hq1 : 0 < q1) (hq2 : 0 < q2)
    (hle1 : q1 ≤ dish_portions_available d) (hle2 : q2 ≤ dish_portions_available d)
    (hsum : dish_portions_available d < q1 + q2) :
    validate_checkout_items env.payload.items env.dishes env.now_minutes =
      .ok [⟨d, q1⟩, ⟨d, q2⟩] ∧
    ((handle_checkout env).http = 201 →
      ∃ d', dishMapGet (handle_checkout env).dishes did = some d' ∧
        d'.portions_available = 0) := by
  have hv : validate_checkout_items env.payload.items env.dishes env.now_minutes =
      .ok [⟨d, q1⟩, ⟨d, q2⟩] := by
    rw [hitems]
    exact validate_two_rows env.dishes env.now_minutes did q1 q2 d hd htime hq1 hq2 hle1 hle2
  refine ⟨hv, ?_⟩
  intro h201
  by_cases hdm : resolved_delivery_mode env.payload ∈ ["pickup", "cook", "courier"]
  · cases hb : build_checkout_items (resolved_delivery_mode env.payload) [⟨d, q1⟩, ⟨d, q2⟩] with
    | error e =>
        rw [handle_checkout_build_error env _ e hv hdm hb] at h201
        simp [checkoutError] at h201
    | ok ti =>
        obtain ⟨total, items⟩ := ti
        cases hp : validate_payment_payload env.payload.payment total env.nowYear env.nowMonth with
        | error e =>
            rw [handle_checkout_payment_error env _ total items e hv hdm hb hp] at h201
            simp [checkoutError] at h201
        | ok pdata =>
            have hdishes := (handle_checkout_success_shape env _ total items pdata hv hdm hb hp).2.2
            rw [hdishes]
            have hid : d.id = did := (dishMapGet_pos env.dishes did d hd).2
            have happ : apply_stock_decrements env.dishes [⟨d, q1⟩, ⟨d, q2⟩] =
                updateLastMatch (decrement_dish q2)
                  (updateLastMatch (decrement_dish q1) env.dishes d.id) d.id := rfl
            refine ⟨decrement_dish q2 (decrement_dish q1 d), ?_, ?_⟩
            · rw [happ, hid,
                dishMapGet_updateLastMatch (decrement_dish q2) (fun x => rfl),
                dishMapGet_updateLastMatch (decrement_dish q1) (fun x => rfl), hd]
              rfl
            · simp only [dish_portions_available] at hsum hle1 hle2
              simp only [decrement_dish, dish_portions_available]
              omega
  · rw [handle_checkout_delivery_invalid env _ hv hdm] at h201
    simp [checkoutError] at h201

/-- Witness for C10: a dish with 3 portions, a cart ordering 2 + 2 of it;
checkout succeeds (HTTP 201) and the stored stock ends at 0. -/
theorem duplicate_lines_oversell_witness :
    dish_is_time_available { id := 1, price := 100, delivery := ["pickup"], portions_available := 3 } ({ payload := { items := some [some ⟨1, 2⟩, some ⟨1, 2⟩], delivery_mode := "pickup", payment := some ⟨"card", "4242424242424242", 12, 2030, "123", "AB"⟩ }, dishes := [{ id := 1, price := 100, delivery := ["pickup"], portions_available := 3 }], nowYear := 2026, nowMonth := 10 } : CheckoutEnv).now_minutes = true ∧
    (∃ d', dishMapGet (handle_checkout { payload := { items := some [some ⟨1, 2⟩, some ⟨1, 2⟩], delivery_mode := "pickup", payment := some ⟨"card", "4242424242424242", 12, 2030, "123", "AB"⟩ }, dishes := [{ id := 1, price := 100, delivery := ["pickup"], portions_available := 3 }], nowYear := 2026, nowMonth := 10 }).dishes 1 = some d' ∧
      d'.portions_available = 0) :=
  ⟨by decide,
    (duplicate_lines_oversell
      { payload := { items := some [some ⟨1, 2⟩, some ⟨1, 2⟩], delivery_mode := "pickup", payment := some ⟨"card", "4242424242424242", 12, 2030, "123", "AB"⟩ }, dishes := [{ id := 1, price := 100, delivery := ["pickup"], portions_available := 3 }], nowYear := 2026, nowMonth := 10 }
      1 2 2 { id := 1, price := 100, delivery := ["pickup"], portions_available := 3 }
      rfl (by decide) (by decide) (by decide) (by decide) (by decide) (by decide)
      (by decide)).2 (by decide)⟩

/-- C8: the validated payment data masks the card number exactly as
`first4 **** **** last4` plus `card_last4`; the data is identical for any
two card payments agreeing on the first 4 digits, last 4 digits, holder and
amount (so the PAN middle digits, the CVC, and the expiry leave no trace);
and the persisted payment record carries exactly the masked/derived card
fields of that validated data. -/
theorem payment_record_masks_pan :
    (∀ (p : PaymentPayload) (amount nowYear nowMonth : Int) (d : PaymentData),
      validate_payment_payload (some p) amount nowYear nowMonth = .ok d →
      d.card_masked = str_take (digits_only p.card_number) 4 ++ " **** **** " ++
        str_last (digits_only p.card_number) 4 ∧
      d.card_last4 = str_last (digits_only p.card_number) 4) ∧
    (∀ (p1 p2 : PaymentPayload) (amount ny1 nm1 ny2 nm2 : Int) (d1 d2 : PaymentData),
      validate_payment_payload (some p1) amount ny1 nm1 = .ok d1 →
      validate_payment_payload (some p2) amount ny2 nm2 = .ok d2 →
      str_take (digits_only p1.card_number) 4 = str_take (digits_only p2.card_number) 4 →
      str_last (digits_only p1.card_number) 4 = str_last (digits_only p2.card_number) 4 →
      clean_str p1.holder = clean_str p2.holder →
      d1 = d2) ∧
    (∀ (payments : List Payment) (order_id : String) (pdata : PaymentData)
      (dateStr nowIso : String),
      (create_payment_record payments order_id pdata dateStr nowIso).card_masked =
        pdata.card_masked ∧
      (create_payment_record payments order_id pdata dateStr nowIso).card_last4 =
        pdata.card_last4 ∧
      (create_payment_record payments order_id pdata dateStr nowIso).holder = pdata.holder) := by
  refine ⟨?_, ?_, ?_⟩
  · intro p amount ny nm d h
    obtain ⟨hlen1, hlen2, hd⟩ := validate_payment_ok_facts p amount ny nm d h
    subst hd
    refine ⟨?_, rfl⟩
    show mask_card_number (digits_only p.card_number) = _
    unfold mask_card_number
    rw [if_neg (by omega)]
  · intro p1 p2 amount ny1 nm1 ny2 nm2 d1 d2 h1 h2 htake hlast hholder
    obtain ⟨hl1, _, hd1⟩ := validate_payment_ok_facts p1 amount ny1 nm1 d1 h1
    obtain ⟨hl2, _, hd2⟩ := validate_payment_ok_facts p2 amount ny2 nm2 d2 h2
    subst hd1
    subst hd2
    have hbrand := card_brand_eq_of_take4 _ _ htake
    have hmask : mask_card_number (digits_only p1.card_number) =
        mask_card_number (digits_only p2.card_number) := by
      unfold mask_card_number
      rw [if_neg (by omega), if_neg (by omega), htake, hlast]
    simp [hbrand, hmask, hlast, hholder]
  · intro payments order_id pdata dateStr nowIso
    exact ⟨rfl, rfl, rfl⟩

/-- Witness for C8: a VISA test card number validates to the masked record
`4242 **** **** 4242`. -/
theorem payment_record_masks_pan_witness :
    validate_payment_payload (some ⟨"card", "4242 4242 4242 4242", 12, 2030, "123", "IVAN IVANOV"⟩) 500 2030 1 = .ok ⟨"card", "VISA", "4242 **** **** 4242", "4242", "IVAN IVANOV", 500, "RUB"⟩ ∧
    (⟨"card", "VISA", "4242 **** **** 4242", "4242", "IVAN IVANOV", 500, "RUB"⟩ : PaymentData).card_masked = str_take (digits_only "4242 4242 4242 4242") 4 ++ " **** **** " ++ str_last (digits_only "4242 4242 4242 4242") 4 ∧
    (⟨"card", "VISA", "4242 **** **** 4242", "4242", "IVAN IVANOV", 500, "RUB"⟩ : PaymentData).card_last4 = str_last (digits_only "4242 4242 4242 4242") 4 :=
  ⟨rfl,
    (payment_record_masks_pan.1 ⟨"card", "4242 4242 4242 4242", 12, 2030, "123", "IVAN IVANOV"⟩
      500 2030 1 ⟨"card", "VISA", "4242 **** **** 4242", "4242", "IVAN IVANOV", 500, "RUB"⟩ rfl).1,
    (payment_record_masks_pan.1 ⟨"card", "4242 4242 4242 4242", 12, 2030, "123", "IVAN IVANOV"⟩
      500 2030 1 ⟨"card", "VISA", "4242 **** **** 4242", "4242", "IVAN IVANOV", 500, "RUB"⟩ rfl).2⟩

/-- C9: a dish with at least one qualifying review (positive rating,
positive matching dish id) is enriched with rating
`round(sum/count + 1e-8, 2)` over exactly its qualifying reviews and
`reviews_count` equal to their number; a dish with no qualifying review
keeps its stored static rating with `reviews_count = 0`; and reviews
`[5, 3, 4]` yield rating `4.0` with `reviews_count = 3`. -/
theorem rating_aggregation (dishes : List Dish) (reviews : List Review) (now : Int) :
    enrich_dishes_with_reviews_and_availability dishes reviews now =
      dishes.map (enrich_dish (build_review_stats dishes reviews).1 now) ∧
    (∀ d : Dish, qualifying_reviews d.id reviews ≠ [] →
      (enrich_dish (build_review_stats dishes reviews).1 now d).rating =
        round_rating (((qualifying_reviews d.id reviews).map Review.rating).sum /
          ((qualifying_reviews d.id reviews).length : ℚ)) ∧
      (enrich_dish (build_review_stats dishes reviews).1 now d).reviews_count =
        ((qualifying_reviews d.id reviews).length : Int)) ∧
    (∀ d : Dish, qualifying_reviews d.id reviews = [] →
      (enrich_dish (build_review_stats dishes reviews).1 now d).rating = d.rating ∧
      (enrich_dish (build_review_stats dishes reviews).1 now d).reviews_count = 0) ∧
    (enrich_dishes_with_reviews_and_availability [{ id := 1 }] [⟨1, 0, 5⟩, ⟨1, 0, 3⟩, ⟨1, 0, 4⟩] 0).map
      (fun e => (e.rating, e.reviews_count)) = [((4 : ℚ), (3 : Int))] := by
  have main : ∀ (dishes' : List Dish) (reviews' : List Review) (now' : Int) (d : Dish),
      (qualifying_reviews d.id reviews' ≠ [] →
        (enrich_dish (build_review_stats dishes' reviews').1 now' d).rating =
          round_rating (((qualifying_reviews d.id reviews').map Review.rating).sum /
            ((qualifying_reviews d.id reviews').length : ℚ)) ∧
        (enrich_dish (build_review_stats dishes' reviews').1 now' d).reviews_count =
          ((qualifying_reviews d.id reviews').length : Int)) ∧
      (qualifying_reviews d.id reviews' = [] →
        (enrich_dish (build_review_stats dishes' reviews').1 now' d).rating = d.rating ∧
        (enrich_dish (build_review_stats dishes' reviews').1 now' d).reviews_count = 0) := by
    intro dishes' reviews' now' d
    constructor
    · intro hne
      have hstats : (build_review_stats dishes' reviews').1 d.id =
          some (rstat_of (qualifying_reviews d.id reviews')) := by
        unfold build_review_stats
        rw [fold_review_stats_fst, if_neg hne]
        simp [rstat_add, rstat_of]
      have hlen : 0 < (qualifying_reviews d.id reviews').length := List.length_pos.mpr hne
      have hcq : (0 : ℚ) < ((qualifying_reviews d.id reviews').length : ℚ) := by
        exact_mod_cast hlen
      simp only [enrich_dish, hstats, rstat_of]
      rw [if_pos hcq]
      exact ⟨rfl, py_int_natCast _⟩
    · intro hempty
      have hstats : (build_review_stats dishes' reviews').1 d.id = none := by
        unfold build_review_stats
        rw [fold_review_stats_fst, if_pos hempty]
      simp only [enrich_dish, hstats]
      exact ⟨trivial, trivial⟩
  refine ⟨rfl, fun d => (main dishes reviews now d).1, fun d => (main dishes reviews now d).2, ?_⟩
  have hq : qualifying_reviews ({ id := 1 } : Dish).id [⟨1, 0, 5⟩, ⟨1, 0, 3⟩, ⟨1, 0, 4⟩] =
      [⟨1, 0, 5⟩, ⟨1, 0, 3⟩, ⟨1, 0, 4⟩] := by decide
  obtain ⟨hrat, hcnt⟩ :=
    (main [{ id := 1 }] [⟨1, 0, 5⟩, ⟨1, 0, 3⟩, ⟨1, 0, 4⟩] 0 { id := 1 }).1 (by rw [hq]; simp)
  simp only [enrich_dishes_with_reviews_and_availability, List.map_cons, List.map_nil]
  rw [hrat, hcnt, hq]
  have harg : (([⟨1, 0, 5⟩, ⟨1, 0, 3⟩, ⟨1, 0, 4⟩] : List Review).map Review.rating).sum /
      (([⟨1, 0, 5⟩, ⟨1, 0, 3⟩, ⟨1, 0, 4⟩] : List Review).length : ℚ) = 4 := by
    norm_num [Review.rating]
  rw [harg, round_rating_four]
  norm_num

/-- Witness for C9: the concrete dish with reviews `[5, 3, 4]`. -/
theorem rating_aggregation_witness :
    qualifying_reviews (({ id := 1 } : Dish)).id [⟨1, 0, 5⟩, ⟨1, 0, 3⟩, ⟨1, 0, 4⟩] ≠ [] ∧
    (enrich_dish (build_review_stats [{ id := 1 }] [⟨1, 0, 5⟩, ⟨1, 0, 3⟩, ⟨1, 0, 4⟩]).1 0 { id := 1 }).rating =
      round_rating (((qualifying_reviews (({ id := 1 } : Dish)).id [⟨1, 0, 5⟩, ⟨1, 0, 3⟩, ⟨1, 0, 4⟩]).map Review.rating).sum /
        ((qualifying_reviews (({ id := 1 } : Dish)).id [⟨1, 0, 5⟩, ⟨1, 0, 3⟩, ⟨1, 0, 4⟩]).length : ℚ)) ∧
    (enrich_dish (build_review_stats [{ id := 1 }] [⟨1, 0, 5⟩, ⟨1, 0, 3⟩, ⟨1, 0, 4⟩]).1 0 { id := 1 }).reviews_count =
      ((qualifying_reviews (({ id := 1 } : Dish)).id [⟨1, 0, 5⟩, ⟨1, 0, 3⟩, ⟨1, 0, 4⟩]).length : Int) :=
  ⟨by decide,
    ((rating_aggregation [{ id := 1 }] [⟨1, 0, 5⟩, ⟨1, 0, 3⟩, ⟨1, 0, 4⟩] 0).2.1 { id := 1 } (by decide)).1,
    ((rating_aggregation [{ id := 1 }] [⟨1, 0, 5⟩, ⟨1, 0, 3⟩, ⟨1, 0, 4⟩] 0).2.1 { id := 1 } (by decide)).2⟩

end DomEda
